import Mathlib

/-!
Shallow embedding of the ride/driver matching and lifecycle core of the
Access-Rides mock backend (the Express routers for rides and chat), together
with proofs about the operations.

JavaScript numbers used by the core (fares, ratings, coordinates) are
modelled as rationals `ℚ`, except the great-circle distance computation,
which uses trigonometric functions and is modelled over the reals `ℝ`.
Timestamps (`new Date()`, `Date.now()`) are modelled by a natural-number
clock `now` passed to each operation.  Mutation of the module-level arrays
`rides` / `drivers` / `chatMessages` is modelled by explicit state passing;
mutation through the object reference returned by `Array.prototype.find` is
modelled by `setFirst`, which rewrites the first list element satisfying the
predicate.  JavaScript string truthiness (`!x`) is modelled as comparison
with the empty string; numeric truthiness as comparison with `0`;
optional/absent object fields as `Option`.
-/

namespace AccessRides

/-- `driver.vehicle` record of the seed data. -/
structure Vehicle where
  make : String
  model : String
  year : ℕ
  color : String
  plateNumber : String
  accessibilityFeatures : List String
deriving DecidableEq

/-- `driver.location` record: latitude/longitude plus `lastUpdated`. -/
structure DriverLocation where
  latitude : ℚ
  longitude : ℚ
  lastUpdated : ℕ
deriving DecidableEq

/-- A driver record as held in the mock backend's `drivers` array. -/
structure Driver where
  id : String
  name : String
  phone : String
  rating : ℚ
  totalRides : ℕ
  vehicle : Vehicle
  location : DriverLocation
  isAvailable : Bool
  languages : List String
deriving DecidableEq

/-- A ride record as held in the mock backend's `rides` array.  Fields the
handlers create lazily (`completedAt`, `cancelledAt`, `updatedAt`, `rating`,
`feedback`, `ratedAt`, `cancellationReason`, `estimatedArrival`) are
`Option`s; the ride status is a plain string, since the PATCH status handler
stores whatever string the caller sends. -/
structure Ride where
  id : String
  passengerId : String
  driverId : String
  pickupLocation : String
  destination : String
  status : String
  fare : ℚ
  rideType : String
  specialRequirements : List String
  createdAt : ℕ
  estimatedArrival : Option ℕ
  completedAt : Option ℕ
  cancelledAt : Option ℕ
  updatedAt : Option ℕ
  cancellationReason : Option String
  rating : Option ℚ
  feedback : Option String
  ratedAt : Option ℕ
deriving DecidableEq

/-- The in-memory store of the rides router: the `rides` and `drivers`
module-level arrays. -/
structure St where
  rides : List Ride
  drivers : List Driver
deriving DecidableEq

/-- Rewrite the first element of the list satisfying `p` by `f`, leaving the
rest unchanged.  This models JavaScript's `arr.find(p)` followed by mutation
of the returned object reference. -/
def setFirst (p : α → Bool) (f : α → α) : List α → List α
  | [] => []
  | a :: as => if p a then f a :: as else a :: setFirst p f as

/-- Truthiness of an optional JavaScript number: `undefined` and `0` are
falsy. -/
def truthyNum : Option ℚ → Bool
  | none => false
  | some v => v != 0

/-- `estimatedFare || fare || 0` from the POST /book handler. -/
def jsFare (estimatedFare fare : Option ℚ) : ℚ :=
  if truthyNum estimatedFare then estimatedFare.getD 0
  else if truthyNum fare then fare.getD 0
  else 0

/-- The request body of POST /book.  `rideType` defaults to
`"access-rides"` and `specialRequirements` to `[]` in the handler's
destructuring; a caller omitting them is modelled by passing those
defaults. -/
structure BookRequest where
  passengerId : String
  pickupLocation : String
  destination : String
  fare : Option ℚ
  rideType : String
  specialRequirements : List String
  estimatedFare : Option ℚ
deriving DecidableEq

/-- The predicate of the handler's driver search:
`driver.isAvailable && driver.vehicle.accessibilityFeatures.some(feature =>
specialRequirements.includes(feature))`. -/
def bookMatch (req : BookRequest) (d : Driver) : Bool :=
  d.isAvailable && d.vehicle.accessibilityFeatures.any
    (fun feature => req.specialRequirements.contains feature)

/-- The ride object POST /book constructs for the matched driver. -/
def newRideOf (now : ℕ) (req : BookRequest) (d : Driver) : Ride where
  id := "ride_" ++ toString now
  passengerId := req.passengerId
  driverId := d.id
  pickupLocation := req.pickupLocation
  destination := req.destination
  status := "requested"
  fare := jsFare req.estimatedFare req.fare
  rideType := req.rideType
  specialRequirements := req.specialRequirements
  createdAt := now
  estimatedArrival := some (now + 15 * 60 * 1000)
  completedAt := none
  cancelledAt := none
  updatedAt := none
  cancellationReason := none
  rating := none
  feedback := none
  ratedAt := none

inductive BookOutcome where
  | missingFields
  | noDriverAvailable
  | booked (ride : Ride)
deriving DecidableEq

/-- POST /book: validate the required fields, find the first available
driver with at least one requested accessibility feature, persist the new
ride and mark that driver unavailable. -/
def book (now : ℕ) (req : BookRequest) (st : St) : BookOutcome × St :=
  if req.passengerId == "" || req.pickupLocation == "" || req.destination == "" then
    (.missingFields, st)
  else
    match st.drivers.find? (bookMatch req) with
    | none => (.noDriverAvailable, st)
    | some d =>
      (.booked (newRideOf now req d),
       { rides := st.rides ++ [newRideOf now req d]
         drivers := setFirst (bookMatch req) (fun dr => { dr with isAvailable := false })
           st.drivers })

/-- The `{latitude, longitude}` object of a PATCH status request body. -/
structure LocationInput where
  latitude : ℚ
  longitude : ℚ
deriving DecidableEq

inductive UpdateOutcome where
  | rideNotFound
  | ok (ride : Ride)
deriving DecidableEq

/-- PATCH /:rideId/status: overwrite the ride's status with the caller's
string (no transition check appears in the handler), stamp `updatedAt`,
forward a provided location to the driver record, and on `"completed"`
stamp `completedAt` and free the driver. -/
def updateStatus (now : ℕ) (rideId status : String) (location : Option LocationInput)
    (st : St) : UpdateOutcome × St :=
  match st.rides.find? (fun r => r.id == rideId) with
  | none => (.rideNotFound, st)
  | some ride =>
    let updRide : Ride → Ride := fun r =>
      { r with status := status, updatedAt := some now
               completedAt := if status == "completed" then some now else r.completedAt }
    let rides' := setFirst (fun r => r.id == rideId) updRide st.rides
    let drivers₁ :=
      match location with
      | some loc =>
        if ride.driverId != "" then
          setFirst (fun d => d.id == ride.driverId)
            (fun d => { d with location := ⟨loc.latitude, loc.longitude, now⟩ })
            st.drivers
        else st.drivers
      | none => st.drivers
    let drivers₂ :=
      if status == "completed" then
        setFirst (fun d => d.id == ride.driverId)
          (fun d => { d with isAvailable := true }) drivers₁
      else drivers₁
    (.ok (updRide ride), { rides := rides', drivers := drivers₂ })

inductive CancelOutcome where
  | rideNotFound
  | alreadyTerminal
  | ok (ride : Ride)
deriving DecidableEq

/-- POST /:rideId/cancel: reject terminal rides with 400, otherwise set the
status to `"cancelled"`, stamp `cancelledAt`, store the reason and free the
assigned driver. -/
def cancel (now : ℕ) (rideId reason : String) (st : St) : CancelOutcome × St :=
  match st.rides.find? (fun r => r.id == rideId) with
  | none => (.rideNotFound, st)
  | some ride =>
    if ride.status == "completed" || ride.status == "cancelled" then
      (.alreadyTerminal, st)
    else
      let updRide : Ride → Ride := fun r =>
        { r with status := "cancelled", cancelledAt := some now
                 cancellationReason := some reason }
      (.ok (updRide ride),
       { rides := setFirst (fun r => r.id == rideId) updRide st.rides
         drivers := setFirst (fun d => d.id == ride.driverId)
           (fun d => { d with isAvailable := true }) st.drivers })

/-- Truthiness of `ride.rating` as the rating recompute filters it:
`r.rating` is truthy when present and non-zero. -/
def ratingPresent (r : Ride) : Bool :=
  match r.rating with
  | none => false
  | some v => v != 0

inductive RateOutcome where
  | invalidRating
  | rideNotFound
  | rideNotCompleted
  | ok (ride : Ride)
deriving DecidableEq

/-- POST /:rideId/rate: validate the rating (`!rating || rating < 1 ||
rating > 5`), require the ride to exist and be completed, stamp the rating
fields on the ride, then recompute the driver's average rating from scratch
over all of that driver's rides carrying a (truthy) rating. -/
def rate (now : ℕ) (rideId : String) (rating : Option ℚ) (feedback : Option String)
    (st : St) : RateOutcome × St :=
  match rating with
  | none => (.invalidRating, st)
  | some v =>
    if v < 1 || v > 5 then (.invalidRating, st)
    else
      match st.rides.find? (fun r => r.id == rideId) with
      | none => (.rideNotFound, st)
      | some ride =>
        if ride.status != "completed" then (.rideNotCompleted, st)
        else
          let updRide : Ride → Ride := fun r =>
            { r with rating := some v, feedback := feedback, ratedAt := some now }
          let rides' := setFirst (fun r => r.id == rideId) updRide st.rides
          let drivers' :=
            match st.drivers.find? (fun d => d.id == ride.driverId) with
            | none => st.drivers
            | some drv =>
              let driverRides := rides'.filter
                (fun r => r.driverId == drv.id && ratingPresent r)
              let totalRating := (driverRides.map (fun r => r.rating.getD 0)).sum
              setFirst (fun d => d.id == ride.driverId)
                (fun d => { d with rating := totalRating / (driverRides.length : ℚ) })
                st.drivers
          (.ok (updRide ride), { rides := rides', drivers := drivers' })

/-- A chat message as held in the chat router's `chatMessages` array. -/
structure ChatMessage where
  id : String
  rideId : String
  senderId : String
  senderType : String
  message : String
  timestamp : ℕ
  messageType : String
  isRead : Bool
deriving DecidableEq

/-- The condition under which PATCH /rides/:rideId/messages/read marks a
message read: `msg.rideId === rideId && msg.senderId !== userId &&
msg.senderType !== userType`. -/
def markReadCond (rideId userId userType : String) (m : ChatMessage) : Bool :=
  m.rideId == rideId && m.senderId != userId && m.senderType != userType

inductive MarkReadOutcome where
  | missingFields
  | ok (updatedCount : ℕ)
deriving DecidableEq

/-- PATCH /rides/:rideId/messages/read: validate `userId`/`userType`, then
set `isRead = true` on every message satisfying `markReadCond` and report
how many were updated. -/
def markRead (rideId userId userType : String) (msgs : List ChatMessage) :
    MarkReadOutcome × List ChatMessage :=
  if userId == "" || userType == "" then (.missingFields, msgs)
  else
    (.ok (msgs.filter (markReadCond rideId userId userType)).length,
     msgs.map (fun m =>
       if markReadCond rideId userId userType m then { m with isRead := true } else m))

/-- `Math.atan2 y x`, modelled as the argument of the complex number
`x + y·i` (which agrees with `atan2` on all inputs, `atan2 0 0 = 0`
included). -/
noncomputable def atan2 (y x : ℝ) : ℝ := Complex.arg ⟨x, y⟩

/-- The `calculateDistance` closure of GET /drivers/nearby: the haversine
great-circle distance in metres with Earth radius 6 371 000 m. -/
noncomputable def calculateDistance (lat1 lng1 lat2 lng2 : ℝ) : ℝ :=
  let R : ℝ := 6371000
  let dLat := (lat2 - lat1) * Real.pi / 180
  let dLng := (lng2 - lng1) * Real.pi / 180
  let a := Real.sin (dLat / 2) * Real.sin (dLat / 2) +
           Real.cos (lat1 * Real.pi / 180) * Real.cos (lat2 * Real.pi / 180) *
           (Real.sin (dLng / 2) * Real.sin (dLng / 2))
  let c := 2 * atan2 (Real.sqrt a) (Real.sqrt (1 - a))
  R * c

/-- The distance from the query origin to a driver's last known location. -/
noncomputable def driverDistance (userLat userLng : ℝ) (d : Driver) : ℝ :=
  calculateDistance userLat userLng (d.location.latitude : ℝ) (d.location.longitude : ℝ)

/-- The comparator of the nearby-drivers sort, ascending by distance. -/
def distLe (p q : Driver × ℝ) : Prop := p.2 ≤ q.2

noncomputable instance : DecidableRel distLe := fun p q => Real.decidableLE p.2 q.2

/-- GET /drivers/nearby: keep the available drivers, pair each with its
distance from the origin, drop those beyond the radius, and sort ascending
by distance. -/
noncomputable def nearbyDrivers (userLat userLng searchRadius : ℝ) (drivers : List Driver) :
    List (Driver × ℝ) :=
  (((drivers.filter (fun d => d.isAvailable)).map
      (fun d => (d, driverDistance userLat userLng d))).filter
        (fun p => decide (p.2 ≤ searchRadius))).insertionSort distLe

/-! ### Seed data

The module-level arrays the rides and chat routers start from.  Fixed ISO
dates are millisecond epoch values; the seeds created with `new Date()` /
`Date.now()` at module load take the clock parameter `now`. -/

def seedRide1 : Ride where
  id := "ride_1"
  passengerId := "user_1"
  driverId := "driver_1"
  pickupLocation := "123 Main Street, Downtown"
  destination := "456 Oak Avenue, Uptown"
  status := "completed"
  fare := 15.50
  rideType := "access-rides"
  specialRequirements := ["wheelchair_accessible", "voice_guidance"]
  createdAt := 1705314600000
  estimatedArrival := none
  completedAt := some 1705316400000
  cancelledAt := none
  updatedAt := none
  cancellationReason := none
  rating := none
  feedback := none
  ratedAt := none

def seedRide2 (now : ℕ) : Ride where
  id := "ride_2"
  passengerId := "user_2"
  driverId := "driver_2"
  pickupLocation := "789 Pine Road, Midtown"
  destination := "321 Elm Street, Suburbs"
  status := "in_progress"
  fare := 22.75
  rideType := "access-rides"
  specialRequirements := ["sign_language_support"]
  createdAt := now
  estimatedArrival := some (now + 10 * 60 * 1000)
  completedAt := none
  cancelledAt := none
  updatedAt := none
  cancellationReason := none
  rating := none
  feedback := none
  ratedAt := none

def seedDriver1 (now : ℕ) : Driver where
  id := "driver_1"
  name := "Ahmed Hassan"
  phone := "+1234567890"
  rating := 4.8
  totalRides := 1250
  vehicle :=
    { make := "Toyota", model := "Camry", year := 2022, color := "Silver"
      plateNumber := "ABC-123"
      accessibilityFeatures := ["wheelchair_ramp", "voice_guidance", "sign_language_support"] }
  location := { latitude := 40.7128, longitude := -74.0060, lastUpdated := now }
  isAvailable := true
  languages := ["English", "Arabic", "Sign Language"]

def seedDriver2 (now : ℕ) : Driver where
  id := "driver_2"
  name := "Sarah Johnson"
  phone := "+1234567891"
  rating := 4.9
  totalRides := 890
  vehicle :=
    { make := "Honda", model := "Accord", year := 2021, color := "Blue"
      plateNumber := "XYZ-789"
      accessibilityFeatures := ["wheelchair_ramp", "voice_guidance"] }
  location := { latitude := 40.7589, longitude := -73.9851, lastUpdated := now }
  isAvailable := true
  languages := ["English", "Spanish", "Sign Language"]

/-- The rides router's initial store. -/
def seedState (now : ℕ) : St where
  rides := [seedRide1, seedRide2 now]
  drivers := [seedDriver1 now, seedDriver2 now]

/-- The chat router's initial `chatMessages` array. -/
def seedMessages : List ChatMessage :=
  [{ id := "msg_1", rideId := "ride_1", senderId := "driver_1", senderType := "driver"
     message := "Hello! I'm your driver. I'm on my way to pick you up."
     timestamp := 1705314600000, messageType := "text", isRead := true },
   { id := "msg_2", rideId := "ride_1", senderId := "user_1", senderType := "passenger"
     message := "Thank you! I'll be waiting at the main entrance."
     timestamp := 1705314660000, messageType := "text", isRead := true },
   { id := "msg_3", rideId := "ride_1", senderId := "driver_1", senderType := "driver"
     message := "I'm here! Look for a silver Toyota Camry."
     timestamp := 1705315500000, messageType := "text", isRead := false }]

/-- A ride status counting as active for the availability invariant:
{requested, assigned, in_progress}. -/
def isActiveStatus (s : String) : Bool :=
  s == "requested" || s == "assigned" || s == "in_progress"

/-- The specified driver-availability invariant: a driver is unavailable
exactly when it is the assigned driver of some active ride, and no driver is
the assigned driver of two active rides at once. -/
def availabilityInvariant (st : St) : Prop :=
  (∀ d ∈ st.drivers,
    (d.isAvailable = false ↔
      ∃ r ∈ st.rides, r.driverId = d.id ∧ isActiveStatus r.status = true)) ∧
  ∀ r₁ ∈ st.rides, ∀ r₂ ∈ st.rides,
    isActiveStatus r₁.status = true → isActiveStatus r₂.status = true →
    r₁.driverId = r₂.driverId → r₁.id = r₂.id

/-- The status carried by a successful PATCH status response, `none` on
failure. -/
def okStatus : UpdateOutcome → Option String
  | .rideNotFound => none
  | .ok r => some r.status

/-- The arithmetic mean of `rating` over all of the given driver's rides on
which a rating is present — the quantity the spec says the rating recompute
must produce. -/
def meanRatedOf (driverId : String) (rides : List Ride) : ℚ :=
  let rated := rides.filter (fun x => x.driverId == driverId && x.rating.isSome)
  ((rated.map (fun x => x.rating.getD 0)).sum) / (rated.length : ℚ)

/-! ### Concrete fixtures used by witnesses -/

/-- A valid booking request asking for sign-language support. -/
def signLanguageRequest : BookRequest where
  passengerId := "user_2"
  pickupLocation := "A"
  destination := "B"
  fare := none
  rideType := "access-rides"
  specialRequirements := ["sign_language_support"]
  estimatedFare := none

/-- A valid booking request asking for a feature no seed driver offers. -/
def petFriendlyRequest : BookRequest where
  passengerId := "user_1"
  pickupLocation := "A"
  destination := "B"
  fare := none
  rideType := "access-rides"
  specialRequirements := ["pet_friendly"]
  estimatedFare := none

/-- A valid booking request with the default (empty) special requirements. -/
def emptyRequirementsRequest : BookRequest where
  passengerId := "user_1"
  pickupLocation := "A"
  destination := "B"
  fare := none
  rideType := "access-rides"
  specialRequirements := []
  estimatedFare := none

/-- A completed ride of driver `d1` carrying the given rating, used to
exercise the rating recompute on a synthetic set of rides. -/
def demoRide (rid : String) (q : Option ℚ) : Ride where
  id := rid
  passengerId := "p1"
  driverId := "d1"
  pickupLocation := "A"
  destination := "B"
  status := "completed"
  fare := 10
  rideType := "access-rides"
  specialRequirements := []
  createdAt := 0
  estimatedArrival := none
  completedAt := some 1
  cancelledAt := none
  updatedAt := none
  cancellationReason := none
  rating := q
  feedback := none
  ratedAt := none

/-- The driver of the synthetic rating fixture. -/
def demoDriver : Driver where
  id := "d1"
  name := "Demo"
  phone := "+1000000000"
  rating := 5
  totalRides := 2
  vehicle :=
    { make := "Ford", model := "Focus", year := 2020, color := "Red"
      plateNumber := "DEM-001", accessibilityFeatures := ["wheelchair_ramp"] }
  location := { latitude := 0, longitude := 0, lastUpdated := 0 }
  isAvailable := true
  languages := ["English"]

/-- A store where driver `d1` has rides rated 5 and 4 and one completed
unrated ride: rating the third ride 3 must yield mean rating 4. -/
def demoState : St where
  rides := [demoRide "r1" (some 5), demoRide "r2" (some 4), demoRide "r3" none]
  drivers := [demoDriver]

/-! ### Helper lemmas about `setFirst` -/

theorem setFirst_find? {α : Type _} (p : α → Bool) (f : α → α) (hf : ∀ a, p (f a) = p a)
    (l : List α) : (setFirst p f l).find? p = (l.find? p).map f := by
  induction l with
  | nil => rfl
  | cons a l ih =>
    by_cases h : p a = true
    · rw [setFirst, if_pos h, List.find?_cons_of_pos _ ((hf a).trans h),
        List.find?_cons_of_pos _ h, Option.map_some']
    · rw [setFirst, if_neg (by simp [h]),
        List.find?_cons_of_neg _ (by simp [h]),
        List.find?_cons_of_neg _ (by simp [h]), ih]

theorem mem_setFirst {α : Type _} {p : α → Bool} {f : α → α} :
    ∀ {l : List α} {x : α}, x ∈ setFirst p f l → x ∈ l ∨ ∃ a ∈ l, p a = true ∧ x = f a := by
  intro l
  induction l with
  | nil => intro x hx; simp [setFirst] at hx
  | cons a l ih =>
    intro x hx
    by_cases h : p a = true
    · rw [setFirst, if_pos h, List.mem_cons] at hx
      rcases hx with rfl | hx
      · exact Or.inr ⟨a, List.mem_cons_self a l, h, rfl⟩
      · exact Or.inl (List.mem_cons_of_mem a hx)
    · rw [setFirst, if_neg (by simp [h]), List.mem_cons] at hx
      rcases hx with rfl | hx
      · exact Or.inl (List.mem_cons_self x l)
      · rcases ih hx with h1 | ⟨b, hb, hpb, rfl⟩
        · exact Or.inl (List.mem_cons_of_mem a h1)
        · exact Or.inr ⟨b, List.mem_cons_of_mem a hb, hpb, rfl⟩

theorem setFirst_find?_key {α : Type _} (key : α → String) (p : α → Bool) (f : α → α)
    (hkey : ∀ a, key (f a) = key a) :
    ∀ {l : List α} {d : α}, (l.map key).Nodup → l.find? p = some d →
      (setFirst p f l).find? (fun x => key x == key d) = some (f d) := by
  intro l
  induction l with
  | nil => intro d _ h; simp at h
  | cons a l ih =>
    intro d hnd hfind
    by_cases h : p a = true
    · rw [List.find?_cons_of_pos _ h, Option.some.injEq] at hfind
      subst hfind
      rw [setFirst, if_pos h]
      exact List.find?_cons_of_pos _ (by simp [hkey a])
    · rw [List.find?_cons_of_neg _ (by simp [h])] at hfind
      have hd : d ∈ l := List.mem_of_find?_eq_some hfind
      have hne : key a ≠ key d := by
        intro he
        exact (List.nodup_cons.mp hnd).1 (he ▸ List.mem_map_of_mem key hd)
      rw [setFirst, if_neg (by simp [h]),
        List.find?_cons_of_neg _ (by simp [hne]),
        ih (List.nodup_cons.mp hnd).2 hfind]

theorem zip_map_self {α β : Type _} (g : α → β) :
    ∀ l : List α, l.zip (l.map g) = l.map (fun a => (a, g a)) := by
  intro l
  induction l with
  | nil => rfl
  | cons a t ih => simp [ih]

theorem cancel_of_terminal (now : ℕ) (rideId reason : String) (st : St) (r : Ride)
    (hfind : st.rides.find? (fun x => x.id == rideId) = some r)
    (hterm : (r.status == "completed" || r.status == "cancelled") = true) :
    cancel now rideId reason st = (.alreadyTerminal, st) := by
  unfold cancel
  rw [hfind]
  exact if_pos hterm

/-! ### The claims -/

/-- C1: the claimed driver-availability invariant ("isAvailable = false iff
assigned to an active ride") fails already on the code's seed data, i.e. on
the store reachable by the empty operation sequence: seed ride_2 is
in_progress and assigned to driver_2, yet driver_2.isAvailable = true. -/
theorem c1_availability_invariant_fails_at_seed :
    ¬ availabilityInvariant (seedState 0) ∧
    (seedDriver2 0).isAvailable = true ∧
    (seedRide2 0).driverId = (seedDriver2 0).id ∧
    isActiveStatus (seedRide2 0).status = true := by
  refine ⟨fun hinv => ?_, rfl, rfl, rfl⟩
  have h := (hinv.1 (seedDriver2 0) (List.mem_cons_of_mem _ (List.mem_cons_self _ _))).mpr
    ⟨seedRide2 0, List.mem_cons_of_mem _ (List.mem_cons_self _ _), rfl, rfl⟩
  exact absurd h (by decide)

/-- C2: the PATCH status handler performs no transition check: on the seed
store, moving ride_1 from the terminal status "completed" back to
"in_progress" succeeds (HTTP 200) and overwrites the stored status, where
the claim demands an InvalidTransition failure leaving the ride
unchanged. -/
theorem c2_illegal_transition_accepted :
    ((seedState 0).rides.find? (fun r => r.id == "ride_1")).map (fun r => r.status) =
      some "completed" ∧
    okStatus (updateStatus 5 "ride_1" "in_progress" none (seedState 0)).1 =
      some "in_progress" ∧
    ((updateStatus 5 "ride_1" "in_progress" none (seedState 0)).2.rides.find?
        (fun r => r.id == "ride_1")).map (fun r => r.status) = some "in_progress" := by
  exact ⟨rfl, rfl, rfl⟩

/-- C3: on a valid booking request with non-empty special requirements,
when the registry holds a matching available driver (`find?` returns the
first driver that is available and shares a requested feature), the booking
succeeds, persists a ride assigned to exactly that driver, marks that
driver unavailable, and the assigned driver was available and possesses at
least one requested feature. -/
theorem c3_book_assigns_first_matching_driver (now : ℕ) (st : St) (req : BookRequest)
    (hp : req.passengerId ≠ "") (hpick : req.pickupLocation ≠ "")
    (hdest : req.destination ≠ "") (hreq : req.specialRequirements ≠ [])
    (hids : (st.drivers.map (fun d => d.id)).Nodup)
    (d : Driver) (hfind : st.drivers.find? (bookMatch req) = some d) :
    (book now req st).1 = .booked (newRideOf now req d) ∧
    (newRideOf now req d).driverId = d.id ∧
    (book now req st).2.rides = st.rides ++ [newRideOf now req d] ∧
    (book now req st).2.drivers.find? (fun x => x.id == d.id) =
      some { d with isAvailable := false } ∧
    d.isAvailable = true ∧
    d.vehicle.accessibilityFeatures.any
      (fun feature => req.specialRequirements.contains feature) = true := by
  have hcond : (req.passengerId == "" || req.pickupLocation == "" ||
      req.destination == "") = false := by
    simp [hp, hpick, hdest]
  have hmatch : d.isAvailable = true ∧
      d.vehicle.accessibilityFeatures.any
        (fun feature => req.specialRequirements.contains feature) = true := by
    simpa [bookMatch] using List.find?_some hfind
  have hb : book now req st =
      (.booked (newRideOf now req d),
       { rides := st.rides ++ [newRideOf now req d]
         drivers := setFirst (bookMatch req) (fun dr => { dr with isAvailable := false })
           st.drivers }) := by
    unfold book
    rw [if_neg (by simp [hcond]), hfind]
  refine ⟨by rw [hb], rfl, by rw [hb], ?_, ?_, ?_⟩
  · rw [hb]
    exact setFirst_find?_key Driver.id (bookMatch req)
      (fun dr => { dr with isAvailable := false }) (fun a => rfl) hids hfind
  · exact hmatch.1
  · exact hmatch.2

/-- C3 witness: on the seed store, booking with
specialRequirements = {sign_language_support} assigns driver_1 (the first
matching available driver) and marks it unavailable. -/
theorem c3_witness :
    (book 7 signLanguageRequest (seedState 0)).1 =
      .booked (newRideOf 7 signLanguageRequest (seedDriver1 0)) ∧
    (newRideOf 7 signLanguageRequest (seedDriver1 0)).driverId = "driver_1" ∧
    (book 7 signLanguageRequest (seedState 0)).2.drivers.find?
      (fun x => x.id == "driver_1") = some { seedDriver1 0 with isAvailable := false } := by
  have h := c3_book_assigns_first_matching_driver 7 (seedState 0) signLanguageRequest
    (by decide) (by decide) (by decide) (by decide) (by decide) (seedDriver1 0) rfl
  exact ⟨h.1, h.2.1, h.2.2.2.1⟩

/-- C4: on a valid booking request, when no available driver shares a
requested feature, booking fails with NoDriverAvailable and the store
(rides and drivers alike) is unchanged. -/
theorem c4_no_match_fails_without_persisting (now : ℕ) (st : St) (req : BookRequest)
    (hp : req.passengerId ≠ "") (hpick : req.pickupLocation ≠ "")
    (hdest : req.destination ≠ "")
    (hnone : ∀ dr ∈ st.drivers, dr.isAvailable = true →
      dr.vehicle.accessibilityFeatures.any
        (fun feature => req.specialRequirements.contains feature) = false) :
    (book now req st).1 = .noDriverAvailable ∧ (book now req st).2 = st := by
  have hcond : (req.passengerId == "" || req.pickupLocation == "" ||
      req.destination == "") = false := by
    simp [hp, hpick, hdest]
  have hfind : st.drivers.find? (bookMatch req) = none := by
    rw [List.find?_eq_none]
    intro dr hdr hbm
    simp only [bookMatch, Bool.and_eq_true] at hbm
    have h2 := hbm.2
    rw [hnone dr hdr hbm.1] at h2
    exact Bool.false_ne_true h2
  unfold book
  rw [if_neg (by simp [hcond]), hfind]
  exact ⟨rfl, rfl⟩

/-- C4 witness: on the seed store, a request for the feature pet_friendly —
which no driver offers, though both drivers are available with other
features — fails with NoDriverAvailable and leaves the store unchanged. -/
theorem c4_witness :
    (book 7 petFriendlyRequest (seedState 0)).1 = .noDriverAvailable ∧
    (book 7 petFriendlyRequest (seedState 0)).2 = seedState 0 :=
  c4_no_match_fails_without_persisting 7 (seedState 0) petFriendlyRequest
    (by decide) (by decide) (by decide) (by decide)

/-- C10: a valid booking request whose special requirements are the empty
set (the handler's default when the field is omitted) always fails with
NoDriverAvailable — an available driver matches only when its features meet
the requirements, which is impossible for an empty requirement set — and
the store is unchanged. -/
theorem c10_empty_requirements_never_book (now : ℕ) (st : St) (req : BookRequest)
    (hp : req.passengerId ≠ "") (hpick : req.pickupLocation ≠ "")
    (hdest : req.destination ≠ "") (hreq : req.specialRequirements = []) :
    (book now req st).1 = .noDriverAvailable ∧ (book now req st).2 = st := by
  have hcond : (req.passengerId == "" || req.pickupLocation == "" ||
      req.destination == "") = false := by
    simp [hp, hpick, hdest]
  have hfind : st.drivers.find? (bookMatch req) = none := by
    rw [List.find?_eq_none]
    intro dr hdr hbm
    simp only [bookMatch, Bool.and_eq_true] at hbm
    have h2 := hbm.2
    rw [hreq] at h2
    simp at h2
  unfold book
  rw [if_neg (by simp [hcond]), hfind]
  exact ⟨rfl, rfl⟩

/-- C10 witness: on the seed store, a valid request with empty special
requirements fails with NoDriverAvailable although both seed drivers are
available. -/
theorem c10_witness :
    (book 7 emptyRequirementsRequest (seedState 0)).1 = .noDriverAvailable ∧
    (book 7 emptyRequirementsRequest (seedState 0)).2 = seedState 0 :=
  c10_empty_requirements_never_book 7 (seedState 0) emptyRequirementsRequest
    (by decide) (by decide) (by decide) rfl

/-- C5: for an existing ride, cancel fails with AlreadyTerminal exactly when
the ride's status is completed or cancelled, a failed cancel leaves the
whole store unchanged, and otherwise the ride becomes cancelled with
`cancelledAt` stamped and the reason stored, the assigned driver becomes
available again, and a second cancel then returns AlreadyTerminal without
changing anything. -/
theorem c5_cancel_terminal_semantics (now : ℕ) (st : St) (rideId reason : String) (r : Ride)
    (hfind : st.rides.find? (fun x => x.id == rideId) = some r) :
    ((cancel now rideId reason st).1 = .alreadyTerminal ↔
      (r.status = "completed" ∨ r.status = "cancelled")) ∧
    ((r.status = "completed" ∨ r.status = "cancelled") →
      (cancel now rideId reason st).2 = st) ∧
    (¬(r.status = "completed" ∨ r.status = "cancelled") →
      (cancel now rideId reason st).1 =
        .ok { r with status := "cancelled", cancelledAt := some now
                     cancellationReason := some reason } ∧
      (cancel now rideId reason st).2.rides.find? (fun x => x.id == rideId) =
        some { r with status := "cancelled", cancelledAt := some now
                      cancellationReason := some reason } ∧
      (∀ d0, st.drivers.find? (fun d => d.id == r.driverId) = some d0 →
        (cancel now rideId reason st).2.drivers.find? (fun d => d.id == r.driverId) =
          some { d0 with isAvailable := true }) ∧
      ∀ (now2 : ℕ) (reason2 : String),
        (cancel now2 rideId reason2 (cancel now rideId reason st).2).1 = .alreadyTerminal ∧
        (cancel now2 rideId reason2 (cancel now rideId reason st).2).2 =
          (cancel now rideId reason st).2) := by
  by_cases hterm : r.status = "completed" ∨ r.status = "cancelled"
  · have hc : cancel now rideId reason st = (.alreadyTerminal, st) :=
      cancel_of_terminal now rideId reason st r hfind (by simp [hterm])
    rw [hc]
    exact ⟨by simp [hterm], fun _ => rfl, fun h => absurd hterm h⟩
  · have hbool : (r.status == "completed" || r.status == "cancelled") = false := by
      simp only [not_or] at hterm
      simp [hterm.1, hterm.2]
    have hc : cancel now rideId reason st =
        (.ok { r with status := "cancelled", cancelledAt := some now
                      cancellationReason := some reason },
         { rides := setFirst (fun x => x.id == rideId)
             (fun x => { x with status := "cancelled", cancelledAt := some now
                                cancellationReason := some reason }) st.rides
           drivers := setFirst (fun d => d.id == r.driverId)
             (fun d => { d with isAvailable := true }) st.drivers }) := by
      unfold cancel
      rw [hfind]
      exact if_neg (by simp [hbool])
    have hrides : (cancel now rideId reason st).2.rides.find? (fun x => x.id == rideId) =
        some { r with status := "cancelled", cancelledAt := some now
                      cancellationReason := some reason } := by
      rw [hc]
      have := setFirst_find? (fun x : Ride => x.id == rideId)
        (fun x => { x with status := "cancelled", cancelledAt := some now
                           cancellationReason := some reason }) (fun a => rfl) st.rides
      rw [this, hfind, Option.map_some']
    refine ⟨iff_of_false (by rw [hc]; simp) hterm, fun h => absurd h hterm,
      fun _ => ⟨by rw [hc], hrides, ?_, ?_⟩⟩
    · intro d0 hd0
      rw [hc]
      have := setFirst_find? (fun d : Driver => d.id == r.driverId)
        (fun d => { d with isAvailable := true }) (fun a => rfl) st.drivers
      rw [this, hd0, Option.map_some']
    · intro now2 reason2
      have hc2 := cancel_of_terminal now2 rideId reason2 (cancel now rideId reason st).2
        _ hrides rfl
      rw [hc2]
      exact ⟨rfl, rfl⟩

/-- C5 witness: cancelling the already completed seed ride_1 fails with
AlreadyTerminal and leaves the store untouched; cancelling the in-progress
seed ride_2 succeeds, stamps the cancellation fields and frees driver_2,
and a second cancel of ride_2 fails with AlreadyTerminal changing
nothing. -/
theorem c5_witness :
    (cancel 3 "ride_1" "changed my mind" (seedState 0)).1 = .alreadyTerminal ∧
    (cancel 3 "ride_1" "changed my mind" (seedState 0)).2 = seedState 0 ∧
    (cancel 3 "ride_2" "too long" (seedState 0)).1 =
      .ok { seedRide2 0 with status := "cancelled", cancelledAt := some 3
                             cancellationReason := some "too long" } ∧
    (cancel 3 "ride_2" "too long" (seedState 0)).2.drivers.find?
      (fun d => d.id == "driver_2") = some { seedDriver2 0 with isAvailable := true } ∧
    (cancel 9 "ride_2" "again" (cancel 3 "ride_2" "too long" (seedState 0)).2).1 =
      .alreadyTerminal := by
  have h1 := c5_cancel_terminal_semantics 3 (seedState 0) "ride_1" "changed my mind"
    seedRide1 rfl
  have h2 := c5_cancel_terminal_semantics 3 (seedState 0) "ride_2" "too long"
    (seedRide2 0) rfl
  have hok := h2.2.2 (by decide)
  exact ⟨h1.1.mpr (Or.inl rfl), h1.2.1 (Or.inl rfl), hok.1,
    hok.2.2.1 (seedDriver2 0) rfl, (hok.2.2.2 9 "again").1⟩

/-- C6 (amended): the rating-range check runs first, so a rating below 1 or
above 5 always fails with InvalidRating; when the rating is in range and
the ride exists with status ≠ completed the call fails with
RideNotCompleted; and every failed rate call leaves the whole store (rides
and drivers alike) unchanged. -/
theorem c6_rate_failure_semantics :
    (∀ (now : ℕ) (st : St) (rideId : String) (v : ℚ) (fb : Option String),
      v < 1 ∨ 5 < v →
      (rate now rideId (some v) fb st).1 = .invalidRating ∧
      (rate now rideId (some v) fb st).2 = st) ∧
    (∀ (now : ℕ) (st : St) (rideId : String) (v : ℚ) (fb : Option String) (r : Ride),
      1 ≤ v → v ≤ 5 → st.rides.find? (fun x => x.id == rideId) = some r →
      r.status ≠ "completed" →
      (rate now rideId (some v) fb st).1 = .rideNotCompleted ∧
      (rate now rideId (some v) fb st).2 = st) ∧
    (∀ (now : ℕ) (st : St) (rideId : String) (rating : Option ℚ) (fb : Option String),
      ((rate now rideId rating fb st).1 = .invalidRating ∨
       (rate now rideId rating fb st).1 = .rideNotFound ∨
       (rate now rideId rating fb st).1 = .rideNotCompleted) →
      (rate now rideId rating fb st).2 = st) := by
  refine ⟨?_, ?_, ?_⟩
  · intro now st rideId v fb h
    have hg : (decide (v < 1) || decide (v > 5)) = true := by
      rcases h with h | h
      · simp [h]
      · simp [h]
    have hr : rate now rideId (some v) fb st = (.invalidRating, st) := by
      unfold rate
      exact if_pos hg
    exact ⟨by rw [hr], by rw [hr]⟩
  · intro now st rideId v fb r h1 h5 hfind hst
    have hga : decide (v < 1) = false := decide_eq_false (not_lt.mpr h1)
    have hgb : decide (v > 5) = false := decide_eq_false (not_lt.mpr h5)
    have hr : rate now rideId (some v) fb st = (.rideNotCompleted, st) := by
      simp [rate, hga, hgb, hfind, hst]
    exact ⟨by rw [hr], by rw [hr]⟩
  · intro now st rideId rating fb h
    cases rating with
    | none => rfl
    | some v =>
      cases hg : (decide (v < 1) || decide (v > 5)) with
      | true =>
        have hr : rate now rideId (some v) fb st = (.invalidRating, st) := by
          unfold rate
          exact if_pos hg
        rw [hr]
      | false =>
        cases hfind : st.rides.find? (fun x => x.id == rideId) with
        | none => simp [rate, hg, hfind]
        | some r =>
          cases hs : r.status != "completed" with
          | true => simp [rate, hg, hfind, hs]
          | false =>
            have hr1 : (rate now rideId (some v) fb st).1 =
                .ok { r with rating := some v, feedback := fb, ratedAt := some now } := by
              simp [rate, hg, hfind, hs]
            rcases h with h | h | h <;> rw [hr1] at h <;> simp at h

/-- C6 counterexample: ride_2 exists with status in_progress ≠ completed,
yet rate(ride_2, 6) fails with InvalidRating, not RideNotCompleted — the
rating-range check precedes the completion check, refuting the claim that
the call fails with RideNotCompleted whenever the ride exists and is not
completed. -/
theorem c6_counterexample :
    ((seedState 0).rides.find? (fun r => r.id == "ride_2")).map (fun r => r.status) =
      some "in_progress" ∧
    (rate 0 "ride_2" (some 6) none (seedState 0)).1 = .invalidRating ∧
    (rate 0 "ride_2" (some 6) none (seedState 0)).1 ≠ .rideNotCompleted := by
  exact ⟨rfl, rfl, by decide⟩

/-- C6 witness: rating 0 on completed ride_1 fails with InvalidRating;
rating 3 on in-progress ride_2 fails with RideNotCompleted; both leave the
store unchanged. -/
theorem c6_witness :
    ((rate 0 "ride_1" (some 0) none (seedState 0)).1 = .invalidRating ∧
     (rate 0 "ride_1" (some 0) none (seedState 0)).2 = seedState 0) ∧
    ((rate 0 "ride_2" (some 3) none (seedState 0)).1 = .rideNotCompleted ∧
     (rate 0 "ride_2" (some 3) none (seedState 0)).2 = seedState 0) :=
  ⟨c6_rate_failure_semantics.1 0 (seedState 0) "ride_1" 0 none (Or.inl (by norm_num)),
   c6_rate_failure_semantics.2.1 0 (seedState 0) "ride_2" 3 none (seedRide2 0)
     (by norm_num) (by norm_num) rfl (by decide)⟩

/-- C7: a successful rate call stamps the rating onto the ride and
recomputes the assigned driver's rating from scratch as the arithmetic mean
of the rating field over all of that driver's rides on which a rating is
present (in the post-call store).  The hypothesis `hz` records that no
stored rating is 0, which holds in every reachable store since the handler
only ever stores ratings in [1, 5]. -/
theorem c7_rate_recomputes_mean (now : ℕ) (st : St) (rideId : String) (v : ℚ)
    (fb : Option String)
    (hz : ∀ x ∈ st.rides, x.rating ≠ some 0)
    (h1 : 1 ≤ v) (h5 : v ≤ 5)
    (r : Ride) (hfind : st.rides.find? (fun x => x.id == rideId) = some r)
    (hst : r.status = "completed")
    (drv : Driver) (hdrv : st.drivers.find? (fun d => d.id == r.driverId) = some drv) :
    (rate now rideId (some v) fb st).1 =
      .ok { r with rating := some v, feedback := fb, ratedAt := some now } ∧
    (rate now rideId (some v) fb st).2.drivers.find? (fun d => d.id == r.driverId) =
      some { drv with rating := meanRatedOf drv.id (rate now rideId (some v) fb st).2.rides } := by
  have hga : decide (v < 1) = false := decide_eq_false (not_lt.mpr h1)
  have hgb : decide (v > 5) = false := decide_eq_false (not_lt.mpr h5)
  have hpair : rate now rideId (some v) fb st =
      (.ok { r with rating := some v, feedback := fb, ratedAt := some now },
       { rides := setFirst (fun x => x.id == rideId)
           (fun x => { x with rating := some v, feedback := fb, ratedAt := some now })
           st.rides
         drivers :=
           setFirst (fun d => d.id == r.driverId)
             (fun d => { d with rating :=
               (((setFirst (fun x => x.id == rideId)
                   (fun x => { x with rating := some v, feedback := fb, ratedAt := some now })
                   st.rides).filter
                     (fun x => x.driverId == drv.id && ratingPresent x)).map
                       (fun x => x.rating.getD 0)).sum /
               (((setFirst (fun x => x.id == rideId)
                   (fun x => { x with rating := some v, feedback := fb, ratedAt := some now })
                   st.rides).filter
                     (fun x => x.driverId == drv.id && ratingPresent x)).length : ℚ) })
             st.drivers }) := by
    simp [rate, hga, hgb, hfind, hst, hdrv]
  have hfilter : ∀ rides' : List Ride,
      rides' = setFirst (fun x => x.id == rideId)
        (fun x => { x with rating := some v, feedback := fb, ratedAt := some now }) st.rides →
      rides'.filter (fun x => x.driverId == drv.id && ratingPresent x) =
        rides'.filter (fun x => x.driverId == drv.id && x.rating.isSome) := by
    intro rides' hr'
    apply List.filter_congr
    intro x hx
    have hpres : ratingPresent x = x.rating.isSome := by
      rw [hr'] at hx
      rcases mem_setFirst hx with hmem | ⟨a, _, _, rfl⟩
      · have hxz := hz x hmem
        cases hxr : x.rating with
        | none => simp [ratingPresent, hxr]
        | some w =>
          have hw : w ≠ 0 := by
            intro hw0
            exact hxz (by rw [hxr, hw0])
          simp [ratingPresent, hxr, hw]
      · have hv : v ≠ 0 := by
          intro hv0
          rw [hv0] at h1
          norm_num at h1
        simp [ratingPresent, hv]
    rw [hpres]
  refine ⟨by rw [hpair], ?_⟩
  rw [hpair]
  have hsf := setFirst_find? (fun d : Driver => d.id == r.driverId)
    (fun d => { d with rating :=
      (((setFirst (fun x => x.id == rideId)
          (fun x => { x with rating := some v, feedback := fb, ratedAt := some now })
          st.rides).filter
            (fun x => x.driverId == drv.id && ratingPresent x)).map
              (fun x => x.rating.getD 0)).sum /
      (((setFirst (fun x => x.id == rideId)
          (fun x => { x with rating := some v, feedback := fb, ratedAt := some now })
          st.rides).filter
            (fun x => x.driverId == drv.id && ratingPresent x)).length : ℚ) })
    (fun a => rfl) st.drivers
  rw [hsf, hdrv, Option.map_some', Option.some.injEq]
  rw [hfilter _ rfl, meanRatedOf]

/-- C7 witness: in the synthetic store where driver d1 has rides rated 5 and
4 and one completed unrated ride, rating that third ride 3 recomputes the
driver's rating to the mean (5 + 4 + 3) / 3 = 4. -/
theorem c7_witness :
    (rate 9 "r3" (some 3) none demoState).2.drivers.find? (fun d => d.id == "d1") =
      some { demoDriver with rating := 4 } := by
  have h := c7_rate_recomputes_mean 9 demoState "r3" 3 none (by decide) (by norm_num)
    (by norm_num) (demoRide "r3" none) rfl rfl demoDriver rfl
  have hrides : (rate 9 "r3" (some 3) none demoState).2.rides =
      [demoRide "r1" (some 5), demoRide "r2" (some 4),
       { demoRide "r3" none with rating := some 3, feedback := none, ratedAt := some 9 }] := rfl
  have hmean : meanRatedOf demoDriver.id (rate 9 "r3" (some 3) none demoState).2.rides = 4 := by
    rw [hrides]
    simp only [meanRatedOf, demoRide, demoDriver, List.filter]
    norm_num
  rw [hmean] at h
  exact h.2

/-- C9 (amended): for a validated caller identity, markRead sets
isRead = true exactly on the messages of that ride whose senderId differs
from userId AND whose senderType differs from userType (the handler
conjoins both conditions); every other message keeps its previous isRead,
and no other field of any message changes. -/
theorem c9_markRead_marks_other_identity (rideId userId userType : String)
    (msgs : List ChatMessage) (hu : userId ≠ "") (ht : userType ≠ "") :
    (markRead rideId userId userType msgs).2.length = msgs.length ∧
    ∀ pr ∈ msgs.zip (markRead rideId userId userType msgs).2,
      pr.2.id = pr.1.id ∧ pr.2.rideId = pr.1.rideId ∧ pr.2.senderId = pr.1.senderId ∧
      pr.2.senderType = pr.1.senderType ∧ pr.2.message = pr.1.message ∧
      pr.2.timestamp = pr.1.timestamp ∧ pr.2.messageType = pr.1.messageType ∧
      (pr.2.isRead = true ↔
        (pr.1.isRead = true ∨
         (pr.1.rideId = rideId ∧ pr.1.senderId ≠ userId ∧ pr.1.senderType ≠ userType))) := by
  have hm : (markRead rideId userId userType msgs).2 =
      msgs.map (fun m =>
        if markReadCond rideId userId userType m then { m with isRead := true } else m) := by
    unfold markRead
    rw [if_neg (by simp [hu, ht])]
  constructor
  · rw [hm, List.length_map]
  · intro pr hpr
    rw [hm, zip_map_self] at hpr
    rcases List.mem_map.mp hpr with ⟨a, _, rfl⟩
    by_cases hc : markReadCond rideId userId userType a = true
    · have hcp := hc
      simp only [markReadCond, Bool.and_eq_true, bne_iff_ne, beq_iff_eq] at hcp
      simp only [hc, if_true]
      simp [hcp.1.1, hcp.1.2, hcp.2]
    · have hc' : markReadCond rideId userId userType a = false := by
        simpa using hc
      have hcp : ¬(a.rideId = rideId ∧ a.senderId ≠ userId ∧ a.senderType ≠ userType) := by
        rintro ⟨h1, h2, h3⟩
        have hcc : markReadCond rideId userId userType a = true := by
          simp [markReadCond, h1, h2, h3]
        rw [hc'] at hcc
        exact absurd hcc Bool.false_ne_true
      simp only [hc', Bool.false_eq_true, if_false]
      simp [hcp]

/-- C9 counterexample: all three seed messages belong to ride_1; msg_3 was
authored by senderId driver_1 ≠ user_9, so the claim (senderId ≠ userId OR
senderType ≠ userType) demands it be marked read by
markRead(ride_1, user_9, driver) — yet the handler, which requires BOTH to
differ, leaves its isRead = false because its senderType equals the
caller's. -/
theorem c9_counterexample :
    (seedMessages.map (fun m => m.rideId)) = ["ride_1", "ride_1", "ride_1"] ∧
    (seedMessages.map (fun m => m.senderId)) = ["driver_1", "user_1", "driver_1"] ∧
    (seedMessages.map (fun m => m.senderType)) = ["driver", "passenger", "driver"] ∧
    (seedMessages.map (fun m => m.isRead)) = [true, true, false] ∧
    "driver_1" ≠ "user_9" ∧
    ((markRead "ride_1" "user_9" "driver" seedMessages).2.map (fun m => m.isRead)) =
      [true, true, false] := by
  decide

/-- C9 witness: for caller (user_1, passenger) on ride_1, the driver's
messages get marked read (msg_3 flips to true) and the caller's own message
keeps its state, so all three messages end up read. -/
theorem c9_witness :
    (markRead "ride_1" "user_1" "passenger" seedMessages).2.length = seedMessages.length ∧
    ((markRead "ride_1" "user_1" "passenger" seedMessages).2.map (fun m => m.isRead)) =
      [true, true, true] :=
  ⟨(c9_markRead_marks_other_identity "ride_1" "user_1" "passenger" seedMessages
      (by decide) (by decide)).1,
   by decide⟩

/-- C8: nearby returns exactly the available drivers whose haversine
distance (Earth radius 6 371 000 m) from the origin is within the radius,
each paired with that distance, sorted ascending by distance; and the
distance function vanishes on equal points and is symmetric. -/
theorem c8_nearby_drivers_spec :
    (∀ (userLat userLng searchRadius : ℝ) (drivers : List Driver) (d : Driver) (x : ℝ),
      (d, x) ∈ nearbyDrivers userLat userLng searchRadius drivers ↔
        (d ∈ drivers ∧ d.isAvailable = true ∧
         x = driverDistance userLat userLng d ∧ x ≤ searchRadius)) ∧
    (∀ (userLat userLng searchRadius : ℝ) (drivers : List Driver),
      (nearbyDrivers userLat userLng searchRadius drivers).Sorted distLe) ∧
    (∀ lat lng : ℝ, calculateDistance lat lng lat lng = 0) ∧
    (∀ lat1 lng1 lat2 lng2 : ℝ,
      calculateDistance lat1 lng1 lat2 lng2 = calculateDistance lat2 lng2 lat1 lng1) := by
  refine ⟨?_, ?_, ?_, ?_⟩
  · intro userLat userLng searchRadius drivers d x
    unfold nearbyDrivers
    rw [List.mem_insertionSort]
    constructor
    · intro h
      rcases List.mem_filter.mp h with ⟨hmem, hrad⟩
      rcases List.mem_map.mp hmem with ⟨d', hd', heq⟩
      injection heq with h1 h2
      subst h1
      subst h2
      rcases List.mem_filter.mp hd' with ⟨hmem', havail⟩
      exact ⟨hmem', havail, rfl, of_decide_eq_true hrad⟩
    · rintro ⟨hmem, havail, rfl, hrad⟩
      exact List.mem_filter.mpr
        ⟨List.mem_map.mpr ⟨d, List.mem_filter.mpr ⟨hmem, havail⟩, rfl⟩,
         decide_eq_true hrad⟩
  · intro userLat userLng searchRadius drivers
    haveI : IsTotal (Driver × ℝ) distLe := ⟨fun a b => le_total a.2 b.2⟩
    haveI : IsTrans (Driver × ℝ) distLe := ⟨fun a b c hab hbc => le_trans hab hbc⟩
    exact List.sorted_insertionSort distLe _
  · intro lat lng
    simp only [calculateDistance]
    have h1 : (lat - lat) * Real.pi / 180 = 0 := by ring
    have h2 : (lng - lng) * Real.pi / 180 = 0 := by ring
    rw [h1, h2]
    have ha : atan2 0 1 = 0 := by
      have h : (⟨1, 0⟩ : ℂ) = 1 := by
        apply Complex.ext <;> simp
      rw [atan2, h, Complex.arg_one]
    simp [Real.sin_zero, Real.sqrt_zero, Real.sqrt_one, ha]
  · intro lat1 lng1 lat2 lng2
    simp only [calculateDistance]
    have key : ∀ x y : ℝ,
        Real.sin ((x - y) * Real.pi / 180 / 2) * Real.sin ((x - y) * Real.pi / 180 / 2) =
        Real.sin ((y - x) * Real.pi / 180 / 2) * Real.sin ((y - x) * Real.pi / 180 / 2) := by
      intro x y
      have h : (x - y) * Real.pi / 180 / 2 = -((y - x) * Real.pi / 180 / 2) := by ring
      rw [h, Real.sin_neg]
      ring
    rw [key lat2 lat1, key lng2 lng1,
      mul_comm (Real.cos (lat1 * Real.pi / 180)) (Real.cos (lat2 * Real.pi / 180))]

end AccessRides
